import Mathlib

/-!
Verification of the client-side state-synchronization and history engine of
the collaborative whiteboard ("Radical Board").

The embedding below is a shallow translation of the JavaScript/JSX client
code.  The repository contains several app variants; the most complete one
is the React client bundled with the `websokets` Spring relay (it has four
element collections: lines, shapes, images, texts, a self-echo guard on
`request-state`, and auto-generated room ids).  An older variant,
`frontend/src/App.jsx`, has three collections (no texts), no self-echo
guard, and rejects blank room ids.  Both are modelled where the claims
compare them.

Coordinates are floating-point in the source; no claim depends on numeric
arithmetic beyond structural equality and list append, so coordinates are
modelled as `Int`.  JavaScript object spreads and array literals build new
objects and arrays on every mutation (the code never mutates an array in
place), which is exactly the persistent-update semantics of Lean lists, so
the embedding is faithful with respect to aliasing: a value captured in the
history can never be changed by a later store update.
-/

namespace Whiteboard

/-- Stroke element: from the `pen` tool literal
`{ id, points: [x, y], color, strokeWidth }` in `handleMouseDown`.
The points list is the flat `[x1, y1, x2, y2, ...]` array of the source. -/
structure Line where
  id : String
  points : List Int
  color : String
  strokeWidth : Int
deriving Repr, DecidableEq

/-- Shape element: from the `rect` / `circle` tool literals in
`handleMouseDown`.  A rect literal carries `width`/`height` and a circle
literal carries `radius`; the embedding keeps all three fields (the unused
ones stay at their creation value `0`, as in the `socket` variant). -/
structure Shape where
  id : String
  type : String
  x : Int
  y : Int
  width : Int
  height : Int
  radius : Int
  color : String
  scaleX : Int
  scaleY : Int
  rotation : Int
deriving Repr, DecidableEq

/-- Image element: from the clipboard-paste literal in `handlePaste`. -/
structure ImageEl where
  id : String
  src : String
  x : Int
  y : Int
  width : Int
  height : Int
  scaleX : Int
  scaleY : Int
  rotation : Int
deriving Repr, DecidableEq

/-- Text element: from the `text` tool literal in `handleMouseDown` of the
websokets client variant. -/
structure TextEl where
  id : String
  content : String
  x : Int
  y : Int
  color : String
  isNew : Bool
  scaleX : Int
  scaleY : Int
  rotation : Int
deriving Repr, DecidableEq

/-- Cursor presence entry: payload of `cursor-updated`
`{ id, x, y, color }`, keyed by the owning client's identity. -/
structure Cursor where
  id : String
  x : Int
  y : Int
  color : String
deriving Repr, DecidableEq

/-- Merge policy for `*-created` events, from the subscription handlers
`setXs(prev => prev.some(e => e.id === inc.id) ? prev : [...prev, inc])`:
insert-if-absent keyed by `id`. -/
def applyCreated (getId : α → String) (inc : α) (prev : List α) : List α :=
  if prev.any (fun l => getId l == getId inc) then prev else prev ++ [inc]

/-- Merge policy for `*-updated` events, from the subscription handlers
`setXs(prev => prev.map(e => e.id === inc.id ? inc : e))`:
replace-by-id, leaving every other element in place. -/
def applyUpdated (getId : α → String) (inc : α) (prev : List α) : List α :=
  prev.map (fun l => if getId l == getId inc then inc else l)

/-- Merge policy for `*-removed` events, from the subscription handlers
`setXs(prev => prev.filter(e => e.id !== inc.id))`: remove-by-id. -/
def applyRemoved (getId : α → String) (remId : String) (prev : List α) : List α :=
  prev.filter (fun l => !(getId l == remId))

/-- Cursor upsert, from `setCursors(prev => ({ ...prev, [inc.id]: inc }))`:
a JavaScript object spread replaces an existing key in place and appends a
new key at the end, preserving insertion order. -/
def setCursor (c : Cursor) (m : List (String × Cursor)) : List (String × Cursor) :=
  if m.any (fun kv => kv.1 == c.id)
  then m.map (fun kv => if kv.1 == c.id then (kv.1, c) else kv)
  else m ++ [(c.id, c)]

/-- Cursor removal, from the `cursor-left` handler
`{ const n = { ...prev }; delete n[inc.id]; return n; }`. -/
def removeCursor (remId : String) (m : List (String × Cursor)) : List (String × Cursor) :=
  m.filter (fun kv => !(kv.1 == remId))

/-- The live Document Store: the four element collections held in React
state (`lines`, `shapes`, `images`, `texts`) plus the cursor table. -/
structure Store where
  lines : List Line
  shapes : List Shape
  images : List ImageEl
  texts : List TextEl
  cursors : List (String × Cursor)
deriving Repr, DecidableEq

/-- A Document Snapshot: the aggregate stored in the undo history and
exchanged during reconciliation (cursors excluded), from the `saveHistory`
literal `{ lines, shapes, images, texts }`. -/
structure Snapshot where
  lines : List Line
  shapes : List Shape
  images : List ImageEl
  texts : List TextEl
deriving Repr, DecidableEq

/-- Take the snapshot of the current store contents, as `saveHistory` reads
`linesRef.current` etc., which mirror the live collections. -/
def snapshotOf (s : Store) : Snapshot :=
  { lines := s.lines, shapes := s.shapes, images := s.images, texts := s.texts }

/-- Payload of a `state-sync` message.  Each collection key may be absent
(`none`), in which case the corresponding local collection is not touched
by the handler. -/
structure SyncPayload where
  lines : Option (List Line)
  shapes : Option (List Shape)
  images : Option (List ImageEl)
  texts : Option (List TextEl)
deriving Repr, DecidableEq

/-- Inbound `state-sync` application, from the subscription handler
`if (inc?.lines) setLines(inc.lines); if (inc?.shapes) setShapes(...); ...`
(a present array is always truthy in JavaScript, so every present key
replaces wholesale and every absent key is skipped). -/
def applyStateSync (inc : SyncPayload) (s : Store) : Store :=
  let s1 := match inc.lines with
    | some ls => { s with lines := ls }
    | none => s
  let s2 := match inc.shapes with
    | some sh => { s1 with shapes := sh }
    | none => s1
  let s3 := match inc.images with
    | some im => { s2 with images := im }
    | none => s2
  match inc.texts with
    | some tx => { s3 with texts := tx }
    | none => s3

/-- A raw STOMP frame as seen by a subscription callback; only the body is
relevant to the handlers. -/
structure StompMessage where
  body : Option String
deriving Repr, DecidableEq

/-- Defensive parse, from
`safeParse = (message) => { if (!message?.body) return null;
try { return JSON.parse(message.body); } catch (e) { return null; } }`.
A missing body and the empty string are both falsy in JavaScript, and a
parse failure yields `null`; the JSON decoding itself is abstracted as the
`parse` argument. -/
def safeParse (parse : String → Option α) (m : StompMessage) : Option α :=
  match m.body with
  | none => none
  | some b => if b = "" then none else parse b

/-- Payload of a `*-removed` or `cursor-left` message; the handlers only
read its `id` field, which may be missing. -/
structure RemovePayload where
  id : Option String
deriving Repr, DecidableEq

/-- Payload of a `request-state` message; carries the requesting client's
identity (possibly missing on a malformed message). -/
structure ReqPayload where
  requesterId : Option String
deriving Repr, DecidableEq

/-- Handler of the `line-created` subscription:
`if (inc) setLines(prev => prev.some(l => l.id === inc.id) ? prev : [...prev, inc])`. -/
def onLineCreated (inc : Option Line) (s : Store) : Store :=
  match inc with
  | none => s
  | some l => { s with lines := applyCreated Line.id l s.lines }

/-- Handler of the `line-updated` subscription:
`if (inc) setLines(prev => prev.map(l => (l.id === inc.id ? inc : l)))`. -/
def onLineUpdated (inc : Option Line) (s : Store) : Store :=
  match inc with
  | none => s
  | some l => { s with lines := applyUpdated Line.id l s.lines }

/-- Handler of the `line-removed` subscription:
`if (inc?.id) setLines(prev => prev.filter(l => l.id !== inc.id))`
(the guard also skips a present-but-empty id, which is falsy). -/
def onLineRemoved (inc : Option RemovePayload) (s : Store) : Store :=
  match inc with
  | none => s
  | some p =>
    match p.id with
    | none => s
    | some i => if i = "" then s else { s with lines := applyRemoved Line.id i s.lines }

/-- Handler of the `shape-created` subscription (same insert-if-absent
policy as `line-created`). -/
def onShapeCreated (inc : Option Shape) (s : Store) : Store :=
  match inc with
  | none => s
  | some sh => { s with shapes := applyCreated Shape.id sh s.shapes }

/-- Handler of the `shape-updated` subscription. -/
def onShapeUpdated (inc : Option Shape) (s : Store) : Store :=
  match inc with
  | none => s
  | some sh => { s with shapes := applyUpdated Shape.id sh s.shapes }

/-- Handler of the `shape-removed` subscription. -/
def onShapeRemoved (inc : Option RemovePayload) (s : Store) : Store :=
  match inc with
  | none => s
  | some p =>
    match p.id with
    | none => s
    | some i => if i = "" then s else { s with shapes := applyRemoved Shape.id i s.shapes }

/-- Handler of the `image-created` subscription. -/
def onImageCreated (inc : Option ImageEl) (s : Store) : Store :=
  match inc with
  | none => s
  | some im => { s with images := applyCreated ImageEl.id im s.images }

/-- Handler of the `image-updated` subscription. -/
def onImageUpdated (inc : Option ImageEl) (s : Store) : Store :=
  match inc with
  | none => s
  | some im => { s with images := applyUpdated ImageEl.id im s.images }

/-- Handler of the `image-removed` subscription. -/
def onImageRemoved (inc : Option RemovePayload) (s : Store) : Store :=
  match inc with
  | none => s
  | some p =>
    match p.id with
    | none => s
    | some i => if i = "" then s else { s with images := applyRemoved ImageEl.id i s.images }

/-- Handler of the `text-created` subscription (websokets variant only). -/
def onTextCreated (inc : Option TextEl) (s : Store) : Store :=
  match inc with
  | none => s
  | some tx => { s with texts := applyCreated TextEl.id tx s.texts }

/-- Handler of the `text-updated` subscription. -/
def onTextUpdated (inc : Option TextEl) (s : Store) : Store :=
  match inc with
  | none => s
  | some tx => { s with texts := applyUpdated TextEl.id tx s.texts }

/-- Handler of the `text-removed` subscription. -/
def onTextRemoved (inc : Option RemovePayload) (s : Store) : Store :=
  match inc with
  | none => s
  | some p =>
    match p.id with
    | none => s
    | some i => if i = "" then s else { s with texts := applyRemoved TextEl.id i s.texts }

/-- Handler of the `cursor-updated` subscription:
`if (inc) setCursors(prev => ({ ...prev, [inc.id]: inc }))`. -/
def onCursorUpdated (inc : Option Cursor) (s : Store) : Store :=
  match inc with
  | none => s
  | some c => { s with cursors := setCursor c s.cursors }

/-- Handler of the `cursor-left` subscription:
`if (inc?.id) setCursors(prev => { const n = { ...prev }; delete n[inc.id]; return n; })`. -/
def onCursorLeft (inc : Option RemovePayload) (s : Store) : Store :=
  match inc with
  | none => s
  | some p =>
    match p.id with
    | none => s
    | some i => if i = "" then s else { s with cursors := removeCursor i s.cursors }

/-- Handler of the `state-sync` subscription. -/
def onStateSync (inc : Option SyncPayload) (s : Store) : Store :=
  match inc with
  | none => s
  | some p => applyStateSync p s

/-- Handler of the `request-state` subscription in the websokets client
variant; returns the `state-sync` payload it publishes, if any:
`const payload = safeParse(m);
if (!payload || payload.requesterId === clientIdRef.current) return;
client.publish(state-sync with lines, shapes, images, texts)`. -/
def onRequestState (clientId : String) (s : Store) (payload : Option ReqPayload) :
    Option SyncPayload :=
  match payload with
  | none => none
  | some p =>
    if p.requesterId = some clientId then none
    else some { lines := some s.lines, shapes := some s.shapes,
                images := some s.images, texts := some s.texts }

/-- Handler of the `request-state` subscription in the `frontend/src/App.jsx`
variant.  Its callback takes no argument — the incoming payload (and hence
its `requesterId`) is never examined — and it unconditionally publishes a
`state-sync` carrying the three collections of that variant (it has no
texts collection, so the `texts` key is absent from its payload). -/
def frontendOnRequestState (lines : List Line) (shapes : List Shape)
    (images : List ImageEl) (_payload : Option ReqPayload) : Option SyncPayload :=
  some { lines := some lines, shapes := some shapes, images := some images, texts := none }

/-- Client application state relevant to the History Engine: the live
store plus the `history` stack of snapshots and the `historyStep` cursor.
The source initializes `history` with one empty snapshot and
`historyStep` with `0`. -/
structure AppState where
  store : Store
  history : List Snapshot
  historyStep : Nat
deriving Repr, DecidableEq

/-- Checkpoint, from `saveHistory`:
`setHistory(prev => [...prev.slice(0, historyStep + 1), newState]);
setHistoryStep(prev => prev + 1)` where `newState` is assembled from the
refs mirroring the live collections (the optional `explicitState` argument
of the source passes the same freshly built aggregate). -/
def saveHistory (s : AppState) : AppState :=
  { s with
    history := s.history.take (s.historyStep + 1) ++ [snapshotOf s.store],
    historyStep := s.historyStep + 1 }

/-- Undo, from `undo`:
`if (historyStep === 0) return; const newStep = historyStep - 1;
const prevState = history[newStep]; setLines(prevState.lines); ...;
setHistoryStep(newStep); publishRoomEvent('state-sync', prevState)`.
The second component is the `state-sync` snapshot handed to
`publishRoomEvent`.  The `none` branch of the lookup is unreachable under
the maintained invariant `historyStep < history.length`. -/
def undo (s : AppState) : AppState × Option Snapshot :=
  if s.historyStep = 0 then (s, none)
  else
    let newStep := s.historyStep - 1
    match s.history[newStep]? with
    | none => (s, none)
    | some prevState =>
      ({ s with
          store := { s.store with
            lines := prevState.lines, shapes := prevState.shapes,
            images := prevState.images, texts := prevState.texts },
          historyStep := newStep },
       some prevState)

/-- Redo, from `redo`:
`if (historyStep === history.length - 1) return;
const newStep = historyStep + 1; const nextState = history[newStep]; ...`. -/
def redo (s : AppState) : AppState × Option Snapshot :=
  if s.historyStep = s.history.length - 1 then (s, none)
  else
    let newStep := s.historyStep + 1
    match s.history[newStep]? with
    | none => (s, none)
    | some nextState =>
      ({ s with
          store := { s.store with
            lines := nextState.lines, shapes := nextState.shapes,
            images := nextState.images, texts := nextState.texts },
          historyStep := newStep },
       some nextState)

/-- Iterated redo: `redoIter n s` performs `n` successive `redo()` calls. -/
def redoIter : Nat → AppState → AppState
  | 0, s => s
  | n + 1, s => redoIter n (redo s).1

/-- The Document Store mutations the claims quantify over: the local
stroke point-append of `handleMouseMove`
(`{ ...line, points: [...line.points, pos.x, pos.y] }` for the line being
drawn) and the create / update / remove operations on each collection. -/
inductive Mutation where
  | pointAppend (drawingLineId : String) (x y : Int)
  | lineCreate (l : Line)
  | lineUpdate (l : Line)
  | lineRemove (remId : String)
  | shapeCreate (sh : Shape)
  | shapeUpdate (sh : Shape)
  | shapeRemove (remId : String)
  | imageCreate (im : ImageEl)
  | imageUpdate (im : ImageEl)
  | imageRemove (remId : String)
  | textCreate (tx : TextEl)
  | textUpdate (tx : TextEl)
  | textRemove (remId : String)
deriving Repr, DecidableEq

/-- Apply one mutation to the live Document Store.  Every branch builds the
next collection from the previous one exactly as the source's `setXs`
updater functions do. -/
def applyMutation : Mutation → Store → Store
  | .pointAppend lid x y, s =>
    { s with lines := s.lines.map (fun line =>
        if line.id == lid then { line with points := line.points ++ [x, y] } else line) }
  | .lineCreate l, s => { s with lines := applyCreated Line.id l s.lines }
  | .lineUpdate l, s => { s with lines := applyUpdated Line.id l s.lines }
  | .lineRemove i, s => { s with lines := applyRemoved Line.id i s.lines }
  | .shapeCreate sh, s => { s with shapes := applyCreated Shape.id sh s.shapes }
  | .shapeUpdate sh, s => { s with shapes := applyUpdated Shape.id sh s.shapes }
  | .shapeRemove i, s => { s with shapes := applyRemoved Shape.id i s.shapes }
  | .imageCreate im, s => { s with images := applyCreated ImageEl.id im s.images }
  | .imageUpdate im, s => { s with images := applyUpdated ImageEl.id im s.images }
  | .imageRemove i, s => { s with images := applyRemoved ImageEl.id i s.images }
  | .textCreate tx, s => { s with texts := applyCreated TextEl.id tx s.texts }
  | .textUpdate tx, s => { s with texts := applyUpdated TextEl.id tx s.texts }
  | .textRemove i, s => { s with texts := applyRemoved TextEl.id i s.texts }

/-- Lift a store mutation to the application state: the `setLines` /
`setShapes` / `setImages` / `setTexts` updaters touch only the live
collections, never the `history` array or `historyStep`. -/
def applyMutationA (m : Mutation) (s : AppState) : AppState :=
  { s with store := applyMutation m s.store }

/-- Apply a sequence of mutations left to right. -/
def applyMutations (ms : List Mutation) (s : AppState) : AppState :=
  ms.foldl (fun a m => applyMutationA m a) s

/-- Blank test on a room identifier, from the JavaScript condition
`!target || !target.trim()`: true exactly when the string is empty or
consists only of whitespace (an empty string and an empty trim result are
both falsy). -/
def isBlank (s : String) : Bool :=
  s.data.all (fun c => c.isWhitespace)

/-- The managed socket client; only the room it was created for matters to
the claims. -/
structure StompClient where
  room : String
deriving Repr, DecidableEq

/-- Connection-related client state: the room id text field, the `joined`
flag and the current client held in `stompRef`. -/
structure ConnState where
  roomId : String
  joined : Bool
  stompRef : Option StompClient
deriving Repr, DecidableEq

/-- Connect of the websokets client variant, from `connectToRoom(targetRoomId)`:
`const rId = targetRoomId || roomId; if (!rId) return;
stompRef.current?.deactivate(); ... stompRef.current = client; client.activate()`.
The second component is the previously held client on which `deactivate()`
was called (the teardown of any existing connection). -/
def connectToRoom (st : ConnState) (targetRoomId : String) : ConnState × Option StompClient :=
  let rId := if targetRoomId ≠ "" then targetRoomId else st.roomId
  if rId = "" then (st, none)
  else ({ st with stompRef := some { room := rId } }, st.stompRef)

/-- Join of the websokets client variant, from `joinRoom(arg)`:
`let target = (typeof arg === 'string') ? arg : roomId;
if (!target || !target.trim()) { target = buildId(); }
setRoomId(target); setJoined(true); connectToRoom(target)`.
`arg` is `some` when a string was passed and `none` when the handler
received a click event (so `Option.getD` selects the `roomId` field);
`genId` stands for the `buildId()` result. -/
def joinRoom (st : ConnState) (arg : Option String) (genId : String) :
    ConnState × Option StompClient :=
  let target0 := arg.getD st.roomId
  let target := if isBlank target0 then genId else target0
  connectToRoom { st with roomId := target, joined := true } target

/-- Connect of the `frontend/src/App.jsx` variant, from its `connectToRoom`:
it returns early when `roomDestinations` is null (blank `roomId`),
otherwise deactivates any current client and activates a new one. -/
def frontendConnectToRoom (st : ConnState) : ConnState × Option StompClient :=
  if st.roomId = "" then (st, none)
  else ({ st with stompRef := some { room := st.roomId } }, st.stompRef)

/-- Join of the `frontend/src/App.jsx` variant, from its `joinRoom`:
`if (!roomId.trim()) return; setJoined(true); connectToRoom()` — a blank
room identifier aborts the join instead of being auto-generated. -/
def frontendJoinRoom (st : ConnState) : ConnState × Option StompClient :=
  if isBlank st.roomId then (st, none)
  else frontendConnectToRoom { st with joined := true }

/-- Sample stroke used by concrete witnesses. -/
def sampleLine : Line :=
  { id := "s1", points := [0, 0, 10, 10], color := "ink", strokeWidth := 3 }

/-- Sample store holding one stroke, used by concrete witnesses. -/
def sampleStore : Store :=
  { lines := [sampleLine], shapes := [], images := [], texts := [], cursors := [] }

/-- Store with all collections empty, used by concrete witnesses. -/
def emptyStore : Store :=
  { lines := [], shapes := [], images := [], texts := [], cursors := [] }

/-- The empty snapshot the history stack is initialized with. -/
def emptySnap : Snapshot :=
  { lines := [], shapes := [], images := [], texts := [] }

/-- Application state sitting at the top of a two-entry history, used by
concrete witnesses. -/
def sampleHist : AppState :=
  { store := sampleStore, history := [emptySnap, snapshotOf sampleStore], historyStep := 1 }

/-- Mutations applied to the application state never touch the history
stack: the collection updaters write only the live store. -/
theorem applyMutations_history (ms : List Mutation) (s : AppState) :
    (applyMutations ms s).history = s.history := by
  induction ms generalizing s with
  | nil => rfl
  | cons m ms ih =>
    simpa [applyMutations, applyMutationA] using ih (applyMutationA m s)

/-- Mutations applied to the application state never move the history
cursor. -/
theorem applyMutations_historyStep (ms : List Mutation) (s : AppState) :
    (applyMutations ms s).historyStep = s.historyStep := by
  induction ms generalizing s with
  | nil => rfl
  | cons m ms ih =>
    simpa [applyMutations, applyMutationA] using ih (applyMutationA m s)

/-- Redo is a no-op at the newest history entry. -/
theorem redo_eq_self_of_top (a : AppState) (h : a.historyStep = a.history.length - 1) :
    (redo a).1 = a := by
  simp [redo, h]

/-- Iterated redo stays put at the newest history entry. -/
theorem redoIter_eq_self_of_top (n : Nat) (a : AppState)
    (h : a.historyStep = a.history.length - 1) :
    redoIter n a = a := by
  induction n with
  | zero => rfl
  | succ n ih => simpa [redoIter, redo_eq_self_of_top a h] using ih

/-- C10: creation conflicts resolve first-writer-wins.  When a `*-created`
event arrives whose id is already present in the collection — even with
entirely different field values — the insert-if-absent policy discards the
incoming element and the collection, including the existing element's
contents, is left exactly as it was. -/
theorem C10_created_first_writer_wins (getId : α → String) (inc : α) (prev : List α)
    (h : prev.any (fun l => getId l == getId inc) = true) :
    applyCreated getId inc prev = prev := by
  simp [applyCreated, h]

/-- C10 witness: a second creation for id `s1` carrying different points,
color and width is discarded entirely. -/
theorem C10_created_first_writer_wins_witness :
    ([sampleLine].any (fun l =>
        Line.id l == Line.id { id := "s1", points := [9], color := "rose", strokeWidth := 5 })
      = true) ∧
    applyCreated Line.id { id := "s1", points := [9], color := "rose", strokeWidth := 5 }
      [sampleLine] = [sampleLine] :=
  ⟨by decide,
   C10_created_first_writer_wins Line.id
     { id := "s1", points := [9], color := "rose", strokeWidth := 5 } [sampleLine] (by decide)⟩

/-- C6: applying the same `*-created` event twice is idempotent — the
second application leaves the collection unchanged, and a collection that
held at most one element with the event's id still holds at most one. -/
theorem C6_created_idempotent (getId : α → String) (inc : α) (prev : List α)
    (h : prev.countP (fun l => getId l == getId inc) ≤ 1) :
    applyCreated getId inc (applyCreated getId inc prev) = applyCreated getId inc prev ∧
    (applyCreated getId inc (applyCreated getId inc prev)).countP
      (fun l => getId l == getId inc) ≤ 1 := by
  by_cases hA : prev.any (fun l => getId l == getId inc) = true
  · constructor
    · simp [applyCreated, hA]
    · simpa [applyCreated, hA] using h
  · have hA' : prev.any (fun l => getId l == getId inc) = false :=
      Bool.eq_false_iff.mpr hA
    have happ : (prev ++ [inc]).any (fun l => getId l == getId inc) = true := by
      simp [List.any_append]
    have hzero : prev.countP (fun l => getId l == getId inc) = 0 := by
      rw [List.countP_eq_zero]
      intro a ha
      have := List.any_eq_false.mp hA' a ha
      simpa using this
    constructor
    · simp [applyCreated, hA', happ]
    · simp [applyCreated, hA', happ, List.countP_append, hzero]

/-- C6 witness: duplicate delivery of the creation of `s1` to an empty
collection leaves exactly one copy. -/
theorem C6_created_idempotent_witness :
    (([] : List Line).countP (fun l => Line.id l == Line.id sampleLine) ≤ 1) ∧
    (applyCreated Line.id sampleLine (applyCreated Line.id sampleLine []) =
        applyCreated Line.id sampleLine [] ∧
      (applyCreated Line.id sampleLine (applyCreated Line.id sampleLine [])).countP
        (fun l => Line.id l == Line.id sampleLine) ≤ 1) :=
  ⟨by decide, C6_created_idempotent Line.id sampleLine [] (by decide)⟩

/-- C7: an inbound `*-updated` or `*-removed` event whose id is not present
in the corresponding collection leaves the collection exactly unchanged — a
benign no-op. -/
theorem C7_unknown_id_noop (getId : α → String) (inc : α) (remId : String) (prev : List α)
    (h1 : prev.any (fun l => getId l == getId inc) = false)
    (h2 : prev.any (fun l => getId l == remId) = false) :
    applyUpdated getId inc prev = prev ∧ applyRemoved getId remId prev = prev := by
  constructor
  · have hmap : ∀ l ∈ prev, (if getId l == getId inc then inc else l) = l := by
      intro l hl
      have := List.any_eq_false.mp h1 l hl
      simp only [Bool.not_eq_true] at this
      simp [this]
    calc prev.map (fun l => if getId l == getId inc then inc else l)
        = prev.map id := List.map_congr_left hmap
      _ = prev := List.map_id prev
  · apply List.filter_eq_self.mpr
    intro l hl
    have := List.any_eq_false.mp h2 l hl
    simpa using this

/-- C7 witness: an update and a removal for the unseen id `ghost` leave a
one-stroke collection unchanged. -/
theorem C7_unknown_id_noop_witness :
    ([sampleLine].any (fun l =>
        Line.id l == Line.id { id := "ghost", points := [], color := "ink", strokeWidth := 1 })
      = false) ∧
    ([sampleLine].any (fun l => Line.id l == "ghost") = false) ∧
    (applyUpdated Line.id { id := "ghost", points := [], color := "ink", strokeWidth := 1 }
        [sampleLine] = [sampleLine] ∧
      applyRemoved Line.id "ghost" [sampleLine] = [sampleLine]) :=
  ⟨by decide, by decide,
   C7_unknown_id_noop Line.id { id := "ghost", points := [], color := "ink", strokeWidth := 1 }
     "ghost" [sampleLine] (by decide) (by decide)⟩

/-- C5: applying an inbound `state-sync` replaces wholesale exactly the
collections whose key is present in the payload (`Option.getD` selects the
payload's list when present and the previous local list otherwise), and
never touches the cursor table. -/
theorem C5_state_sync_frame (inc : SyncPayload) (s : Store) :
    (applyStateSync inc s).lines = inc.lines.getD s.lines ∧
    (applyStateSync inc s).shapes = inc.shapes.getD s.shapes ∧
    (applyStateSync inc s).images = inc.images.getD s.images ∧
    (applyStateSync inc s).texts = inc.texts.getD s.texts ∧
    (applyStateSync inc s).cursors = s.cursors := by
  cases hl : inc.lines <;> cases hs : inc.shapes <;>
    cases hi : inc.images <;> cases ht : inc.texts <;>
      simp [applyStateSync, hl, hs, hi, ht]

/-- C2: snapshot isolation.  After a checkpoint, no sequence of live-store
mutations changes the history stack, and in particular the snapshot the
checkpoint stored still holds exactly the contents captured at checkpoint
time.  In the source this holds because every mutation builds new arrays
and objects (spreads), never mutating in place the arrays a snapshot
references; the persistent-list embedding reflects exactly that. -/
theorem C2_snapshot_isolation (s : AppState) (ms : List Mutation) :
    (applyMutations ms (saveHistory s)).history = (saveHistory s).history ∧
    (applyMutations ms (saveHistory s)).history.getLast? = some (snapshotOf s.store) := by
  refine ⟨applyMutations_history ms (saveHistory s), ?_⟩
  rw [applyMutations_history ms (saveHistory s)]
  simp [saveHistory]

/-- C1: divergence between the two client variants on the self-echo guard.
The websokets client variant suppresses its reply when the incoming
`request-state` carries its own client identity, as the claim states; the
`frontend/src/App.jsx` variant never examines `requesterId` and publishes a
`state-sync` of its (here empty) board even in response to its own request
— the exact self-wipe the guard exists to prevent. -/
theorem C1_self_echo_guard_divergence :
    onRequestState "client-a" emptyStore (some { requesterId := some "client-a" }) = none ∧
    frontendOnRequestState [] [] [] (some { requesterId := some "client-a" }) =
      some { lines := some [], shapes := some [], images := some [], texts := none } := by
  constructor <;> decide

/-- C8: a message whose body is absent, empty, or unparseable (every field
decoder fails on it) is dropped by every subscription handler with no
mutation of any element collection or cursor entry, and the `request-state`
handler publishes nothing; all handlers are total functions, so no error is
raised. -/
theorem C8_malformed_message_no_mutation (m : StompMessage) (s : Store) (clientId : String)
    (pl : String → Option Line) (psh : String → Option Shape)
    (pim : String → Option ImageEl) (ptx : String → Option TextEl)
    (prm : String → Option RemovePayload) (pcu : String → Option Cursor)
    (pss : String → Option SyncPayload) (prs : String → Option ReqPayload)
    (hm : m.body = none ∨ m.body = some "" ∨
      (∃ b, m.body = some b ∧ pl b = none ∧ psh b = none ∧ pim b = none ∧
        ptx b = none ∧ prm b = none ∧ pcu b = none ∧ pss b = none ∧ prs b = none)) :
    onLineCreated (safeParse pl m) s = s ∧
    onLineUpdated (safeParse pl m) s = s ∧
    onLineRemoved (safeParse prm m) s = s ∧
    onShapeCreated (safeParse psh m) s = s ∧
    onShapeUpdated (safeParse psh m) s = s ∧
    onShapeRemoved (safeParse prm m) s = s ∧
    onCursorUpdated (safeParse pcu m) s = s ∧
    onCursorLeft (safeParse prm m) s = s ∧
    onImageCreated (safeParse pim m) s = s ∧
    onImageUpdated (safeParse pim m) s = s ∧
    onImageRemoved (safeParse prm m) s = s ∧
    onTextCreated (safeParse ptx m) s = s ∧
    onTextUpdated (safeParse ptx m) s = s ∧
    onTextRemoved (safeParse prm m) s = s ∧
    onStateSync (safeParse pss m) s = s ∧
    onRequestState clientId s (safeParse prs m) = none := by
  rcases hm with h | h | ⟨b, hb, h1, h2, h3, h4, h5, h6, h7, h8⟩
  · simp [safeParse, h, onLineCreated, onLineUpdated, onLineRemoved, onShapeCreated,
      onShapeUpdated, onShapeRemoved, onCursorUpdated, onCursorLeft, onImageCreated,
      onImageUpdated, onImageRemoved, onTextCreated, onTextUpdated, onTextRemoved,
      onStateSync, onRequestState]
  · simp [safeParse, h, onLineCreated, onLineUpdated, onLineRemoved, onShapeCreated,
      onShapeUpdated, onShapeRemoved, onCursorUpdated, onCursorLeft, onImageCreated,
      onImageUpdated, onImageRemoved, onTextCreated, onTextUpdated, onTextRemoved,
      onStateSync, onRequestState]
  · by_cases hbe : b = "" <;>
      simp [safeParse, hb, hbe, h1, h2, h3, h4, h5, h6, h7, h8, onLineCreated,
        onLineUpdated, onLineRemoved, onShapeCreated, onShapeUpdated, onShapeRemoved,
        onCursorUpdated, onCursorLeft, onImageCreated, onImageUpdated, onImageRemoved,
        onTextCreated, onTextUpdated, onTextRemoved, onStateSync, onRequestState]

/-- C8 witness: a frame with no body is dropped by every handler of a
one-stroke store with no mutation and no publish. -/
theorem C8_malformed_message_no_mutation_witness :
    (StompMessage.mk none).body = none ∧
    (onLineCreated (safeParse (fun _ => none) (StompMessage.mk none)) sampleStore = sampleStore ∧
     onLineUpdated (safeParse (fun _ => none) (StompMessage.mk none)) sampleStore = sampleStore ∧
     onLineRemoved (safeParse (fun _ => none) (StompMessage.mk none)) sampleStore = sampleStore ∧
     onShapeCreated (safeParse (fun _ => none) (StompMessage.mk none)) sampleStore = sampleStore ∧
     onShapeUpdated (safeParse (fun _ => none) (StompMessage.mk none)) sampleStore = sampleStore ∧
     onShapeRemoved (safeParse (fun _ => none) (StompMessage.mk none)) sampleStore = sampleStore ∧
     onCursorUpdated (safeParse (fun _ => none) (StompMessage.mk none)) sampleStore = sampleStore ∧
     onCursorLeft (safeParse (fun _ => none) (StompMessage.mk none)) sampleStore = sampleStore ∧
     onImageCreated (safeParse (fun _ => none) (StompMessage.mk none)) sampleStore = sampleStore ∧
     onImageUpdated (safeParse (fun _ => none) (StompMessage.mk none)) sampleStore = sampleStore ∧
     onImageRemoved (safeParse (fun _ => none) (StompMessage.mk none)) sampleStore = sampleStore ∧
     onTextCreated (safeParse (fun _ => none) (StompMessage.mk none)) sampleStore = sampleStore ∧
     onTextUpdated (safeParse (fun _ => none) (StompMessage.mk none)) sampleStore = sampleStore ∧
     onTextRemoved (safeParse (fun _ => none) (StompMessage.mk none)) sampleStore = sampleStore ∧
     onStateSync (safeParse (fun _ => none) (StompMessage.mk none)) sampleStore = sampleStore ∧
     onRequestState "client-a" sampleStore
       (safeParse (fun _ => none) (StompMessage.mk none)) = none) :=
  ⟨rfl,
   C8_malformed_message_no_mutation (StompMessage.mk none) sampleStore "client-a"
     (fun _ => none) (fun _ => none) (fun _ => none) (fun _ => none) (fun _ => none)
     (fun _ => none) (fun _ => none) (fun _ => none) (Or.inl rfl)⟩

/-- C9 counterexample: in the `frontend/src/App.jsx` variant a join action
with a blank room identifier is aborted outright — no identifier is
auto-generated and the client does not connect — refuting the claim as a
statement about every join action in the repository. -/
theorem C9_frontend_blank_join_counterexample :
    frontendJoinRoom { roomId := "", joined := false, stompRef := none } =
      ({ roomId := "", joined := false, stompRef := none }, none) ∧
    (frontendJoinRoom { roomId := "", joined := false, stompRef := none }).1.joined = false ∧
    (frontendJoinRoom { roomId := "", joined := false, stompRef := none }).1.stompRef = none := by
  refine ⟨?_, ?_, ?_⟩ <;> decide

/-- C9 (amended): in the websokets client variant a blank supplied room
identifier is replaced by a freshly generated one and the join proceeds
with it, while a non-blank identifier is used as given; in either case the
previously held connection is the one deactivated, and the single
`stompRef` slot then holds only the new connection.  In the
`frontend/src/App.jsx` variant a blank identifier instead aborts the join
with no connection attempt. -/
theorem C9_join_room_amended (st : ConnState) (arg : Option String) (genId : String)
    (hgen : isBlank genId = false) :
    (isBlank (arg.getD st.roomId) = true →
      (joinRoom st arg genId).1.roomId = genId ∧
      (joinRoom st arg genId).1.joined = true ∧
      (joinRoom st arg genId).1.stompRef = some { room := genId } ∧
      (joinRoom st arg genId).2 = st.stompRef) ∧
    (isBlank (arg.getD st.roomId) = false →
      (joinRoom st arg genId).1.joined = true ∧
      (joinRoom st arg genId).1.stompRef = some { room := arg.getD st.roomId } ∧
      (joinRoom st arg genId).2 = st.stompRef) ∧
    (∀ fs : ConnState, isBlank fs.roomId = true → frontendJoinRoom fs = (fs, none)) := by
  have hgenne : genId ≠ "" := by
    intro h
    rw [h] at hgen
    exact absurd hgen (by decide)
  refine ⟨?_, ?_, ?_⟩
  · intro hblank
    simp [joinRoom, connectToRoom, hblank, hgenne]
  · intro hnb
    have htne : arg.getD st.roomId ≠ "" := by
      intro h
      rw [h] at hnb
      exact absurd hnb (by decide)
    simp [joinRoom, connectToRoom, hnb, htne]
  · intro fs h
    simp [frontendJoinRoom, h]

/-- C9 witness: a click-event join (`arg` absent) with blank `roomId` and
an existing connection: the generated id is adopted, the client connects to
it, and the old connection is the one deactivated. -/
theorem C9_join_room_amended_witness :
    (isBlank "1700000000000-ab12cd" = false) ∧
    ((joinRoom { roomId := "", joined := false, stompRef := some { room := "old" } }
        none "1700000000000-ab12cd").1.roomId = "1700000000000-ab12cd" ∧
      (joinRoom { roomId := "", joined := false, stompRef := some { room := "old" } }
        none "1700000000000-ab12cd").1.joined = true ∧
      (joinRoom { roomId := "", joined := false, stompRef := some { room := "old" } }
        none "1700000000000-ab12cd").1.stompRef = some { room := "1700000000000-ab12cd" } ∧
      (joinRoom { roomId := "", joined := false, stompRef := some { room := "old" } }
        none "1700000000000-ab12cd").2 = some { room := "old" }) :=
  ⟨by decide,
   (C9_join_room_amended { roomId := "", joined := false, stompRef := some { room := "old" } }
      none "1700000000000-ab12cd" (by decide)).1 (by decide)⟩

/-- C3: the undo/redo round trip.  From a state `S0` sitting at the top of
the history whose newest snapshot matches the live store, a mutation
followed by `checkpoint()` (`saveHistory`) yields `S1`; `undo()` then
restores the element collections exactly to `S0`, a subsequent `redo()`
restores them exactly to `S1`, and `undo()` at history step 0 changes
nothing. -/
theorem C3_undo_redo_round_trip (s : AppState) (m : Mutation)
    (htop : s.historyStep = s.history.length - 1)
    (hcur : s.history[s.historyStep]? = some (snapshotOf s.store)) :
    snapshotOf ((undo (saveHistory (applyMutationA m s))).1.store) = snapshotOf s.store ∧
    snapshotOf ((redo (undo (saveHistory (applyMutationA m s))).1).1.store) =
      snapshotOf (applyMutation m s.store) ∧
    (∀ t : AppState, t.historyStep = 0 → (undo t).1 = t) := by
  have hlt : s.historyStep < s.history.length := by
    by_contra hge
    rw [List.getElem?_eq_none_iff.mpr (Nat.le_of_not_lt hge)] at hcur
    exact Option.noConfusion hcur
  have hlook : (s.history.take (s.historyStep + 1) ++
      [snapshotOf (applyMutation m s.store)])[s.historyStep]? = some (snapshotOf s.store) := by
    rw [List.getElem?_append, List.length_take]
    rw [if_pos (by omega)]
    rw [List.getElem?_take_of_lt (Nat.lt_succ_self _)]
    exact hcur
  have hu : (undo (saveHistory (applyMutationA m s))).1 =
      { store := { applyMutation m s.store with
          lines := s.store.lines, shapes := s.store.shapes,
          images := s.store.images, texts := s.store.texts },
        history := s.history.take (s.historyStep + 1) ++
          [snapshotOf (applyMutation m s.store)],
        historyStep := s.historyStep } := by
    simp only [undo, saveHistory, applyMutationA]
    rw [if_neg (Nat.succ_ne_zero _)]
    simp only [Nat.add_sub_cancel]
    rw [hlook]
    simp [snapshotOf]
  have hlook2 : (s.history.take (s.historyStep + 1) ++
      [snapshotOf (applyMutation m s.store)])[s.historyStep + 1]? =
      some (snapshotOf (applyMutation m s.store)) := by
    rw [List.getElem?_append, List.length_take]
    rw [if_neg (by omega)]
    have hmin : min (s.historyStep + 1) s.history.length = s.historyStep + 1 := by omega
    rw [hmin]
    simp
  have hlen2 : (s.history.take (s.historyStep + 1) ++
      [snapshotOf (applyMutation m s.store)]).length = s.historyStep + 2 := by
    rw [List.length_append, List.length_take]
    simp
    omega
  refine ⟨?_, ?_, ?_⟩
  · rw [hu]
    simp [snapshotOf]
  · rw [hu]
    simp only [redo, hlen2]
    rw [if_neg (by omega)]
    rw [hlook2]
    simp [snapshotOf]
  · intro t ht
    simp [undo, ht]

/-- C3 witness: a two-entry history at its top; removing the stroke and
checkpointing, then undoing, restores the one-stroke board, and redoing
restores the empty board of the new checkpoint. -/
theorem C3_undo_redo_round_trip_witness :
    (sampleHist.historyStep = sampleHist.history.length - 1 ∧
      sampleHist.history[sampleHist.historyStep]? = some (snapshotOf sampleHist.store)) ∧
    snapshotOf ((undo (saveHistory
        (applyMutationA (Mutation.lineRemove "s1") sampleHist))).1.store) =
      snapshotOf sampleHist.store ∧
    snapshotOf ((redo (undo (saveHistory
        (applyMutationA (Mutation.lineRemove "s1") sampleHist))).1).1.store) =
      snapshotOf (applyMutation (Mutation.lineRemove "s1") sampleHist.store) :=
  ⟨⟨by decide, by decide⟩,
   (C3_undo_redo_round_trip sampleHist (Mutation.lineRemove "s1")
     (by decide) (by decide)).1,
   (C3_undo_redo_round_trip sampleHist (Mutation.lineRemove "s1")
     (by decide) (by decide)).2.1⟩

/-- C4: redo-branch discard.  After undoing from step `k + 1` down to step
`k`, performing any further mutations and then a new `checkpoint()`, every
subsequent `redo()` is a no-op (the new checkpoint sits at the newest
history entry), so no sequence of redo calls can ever bring the store back
to the snapshot that occupied step `k + 1` before the new checkpoint, as
long as that snapshot differs from the newly checkpointed one. -/
theorem C4_redo_branch_discard (s : AppState) (ms : List Mutation) (oldSnap : Snapshot)
    (h0 : s.historyStep ≠ 0)
    (hlt : s.historyStep < s.history.length)
    (hold : s.history[s.historyStep]? = some oldSnap)
    (hne : snapshotOf (saveHistory (applyMutations ms (undo s).1)).store ≠ oldSnap) :
    (∀ n, redoIter n (saveHistory (applyMutations ms (undo s).1)) =
        saveHistory (applyMutations ms (undo s).1)) ∧
    (∀ n, snapshotOf (redoIter n
        (saveHistory (applyMutations ms (undo s).1))).store ≠ oldSnap) := by
  have hpred : s.historyStep - 1 < s.history.length := by omega
  obtain ⟨x, hx⟩ : ∃ x, s.history[s.historyStep - 1]? = some x :=
    ⟨_, (List.getElem?_eq_some_getElem_iff _ _ hpred).mpr trivial⟩
  have hu1 : (undo s).1.history = s.history := by
    simp only [undo]
    rw [if_neg h0, hx]
  have hu2 : (undo s).1.historyStep = s.historyStep - 1 := by
    simp only [undo]
    rw [if_neg h0, hx]
  have hv1 : (applyMutations ms (undo s).1).history = s.history := by
    rw [applyMutations_history, hu1]
  have hv2 : (applyMutations ms (undo s).1).historyStep = s.historyStep - 1 := by
    rw [applyMutations_historyStep, hu2]
  have hc : (saveHistory (applyMutations ms (undo s).1)).historyStep =
      (saveHistory (applyMutations ms (undo s).1)).history.length - 1 := by
    simp only [saveHistory, List.length_append, List.length_take]
    rw [hv1, hv2]
    simp only [List.length_cons, List.length_nil]
    omega
  refine ⟨fun n => redoIter_eq_self_of_top n _ hc, fun n => ?_⟩
  rw [redoIter_eq_self_of_top n _ hc]
  exact hne

/-- C4 witness: from a two-entry history at step 1, undo to step 0 and
checkpoint; one redo leaves the state fixed and the store never returns to
the one-stroke snapshot that previously occupied step 1. -/
theorem C4_redo_branch_discard_witness :
    (sampleHist.historyStep ≠ 0 ∧
      sampleHist.historyStep < sampleHist.history.length ∧
      sampleHist.history[sampleHist.historyStep]? = some (snapshotOf sampleStore) ∧
      snapshotOf (saveHistory (applyMutations [] (undo sampleHist).1)).store ≠
        snapshotOf sampleStore) ∧
    redoIter 1 (saveHistory (applyMutations [] (undo sampleHist).1)) =
      saveHistory (applyMutations [] (undo sampleHist).1) ∧
    snapshotOf (redoIter 1 (saveHistory (applyMutations [] (undo sampleHist).1))).store ≠
      snapshotOf sampleStore :=
  ⟨⟨by decide, by decide, by decide, by decide⟩,
   (C4_redo_branch_discard sampleHist [] (snapshotOf sampleStore)
     (by decide) (by decide) (by decide) (by decide)).1 1,
   (C4_redo_branch_discard sampleHist [] (snapshotOf sampleStore)
     (by decide) (by decide) (by decide) (by decide)).2 1⟩

end Whiteboard
